import Mathlib

/-!
Shallow embedding of the inference-orchestration and evaluation core of the
quantized LLM service (Rust sources under `src/quantized_llm_service/src/`).

External collaborators (the tokenizer, the tensor-execution engine, the
filesystem and the wall clock) are modelled as parameters: a tokenizer is a
pair of fallible functions, a loaded module is a fallible forward-pass
function from a token-id sequence to per-position logit vectors, and elapsed
wall-clock time enters as an explicit nanosecond count.  Machine floats are
modelled by `ℚ`; `u64`/`usize`/`u128` by `Nat` (the operations embedded here
never overflow their Rust widths on the inputs considered).
-/

namespace QLLM

/-- `ServiceError` from `error.rs`. -/
inductive ServiceError where
  | modelLoading
  | badRequest (msg : String)
  | tokenizerErr (msg : String)
  | inference (msg : String)
  | quantizationErr (msg : String)
  | ioErr (msg : String)
  | other (msg : String)
deriving DecidableEq, Repr

/-- `ModelMetadata` from `model/types.rs`. -/
structure ModelMetadata where
  name : String
  quantized : Bool
  dtype : String
  size_bytes : Nat
deriving DecidableEq, Repr

/-- `GenerationRequest` from `model/types.rs`. -/
structure GenerationRequest where
  prompt : String
  max_new_tokens : Option Nat
  temperature : Option ℚ
  top_k : Option Nat
deriving DecidableEq, Repr

/-- `GenerationResponse` from `model/types.rs` (`tokens_per_second: f64` as `ℚ`,
`total_time_ms: u128` as `Nat`). -/
structure GenerationResponse where
  prompt : String
  completion : String
  tokens_generated : Nat
  total_time_ms : Nat
  tokens_per_second : ℚ
  model : ModelMetadata
deriving DecidableEq, Repr

/-- The fields of `AppConfig` (`config.rs`) consumed by the generation and
evaluation paths. -/
structure AppConfig where
  max_new_tokens : Nat
  temperature : ℚ
  top_k : Nat
deriving Repr

/-- The tokenizer collaborator: `encode(text, add_special_tokens)` and
`decode(ids, skip_special_tokens)`, both fallible. -/
structure Tokenizer where
  encode : String → Except String (List Nat)
  decode : List Nat → Except String String

/-- Rust `char::is_whitespace` (the Unicode `White_Space` property), used by
`str::trim` in the prompt validation of `ModelInstance::generate`. -/
def is_rust_whitespace (c : Char) : Bool :=
  let n := c.toNat
  n = 0x9 || n = 0xA || n = 0xB || n = 0xC || n = 0xD || n = 0x20 ||
  n = 0x85 || n = 0xA0 || n = 0x1680 || (0x2000 ≤ n && n ≤ 0x200A) ||
  n = 0x2028 || n = 0x2029 || n = 0x202F || n = 0x205F || n = 0x3000

/-- Rust `str::trim`: strip leading and trailing whitespace characters. -/
def rust_trim (s : String) : String :=
  String.mk (((s.data.dropWhile is_rust_whitespace).reverse.dropWhile
      is_rust_whitespace).reverse)

/-- Index of the (first) maximum entry of a logit vector: `Tensor::argmax`
applied to the last-position logits in `ModelInstance::generate`. -/
def argmaxIdx (l : List ℚ) : Nat :=
  go 0 0 1 l
where
  /-- `go best bestVal next rest`: fold tracking the best index so far. -/
  go (best : Nat) (bestVal : ℚ) (next : Nat) : List ℚ → Nat
    | [] => best
    | y :: ys => if bestVal < y then go next y (next + 1) ys
                 else go best bestVal (next + 1) ys

/-- On a non-empty list, seed the fold with the head. -/
def argmax (l : List ℚ) : Nat :=
  match l with
  | [] => 0
  | x :: xs => argmaxIdx.go 0 x 1 xs

/-- A loaded model handle (`ModelInstance` from `model/loader.rs`): metadata
plus the traced module, modelled as a fallible forward pass from the current
token-id sequence to the logit vectors of every sequence position. -/
structure ModelInstance where
  name : String
  quantized : Bool
  dtype : String
  size_bytes : Nat
  forward : List Nat → Except String (List (List ℚ))

/-- `ModelInstance::metadata`. -/
def ModelInstance.metadata (m : ModelInstance) : ModelMetadata :=
  { name := m.name, quantized := m.quantized, dtype := m.dtype,
    size_bytes := m.size_bytes }

/-- The hard-coded GPT-2 end-of-sequence token id of the decode loop
(`if next_token_id == 50256 { break; }`). -/
def EOS_TOKEN_ID : Nat := 50256

/-- The autoregressive decode loop of `ModelInstance::generate`
(`for _ in 0..max_new_tokens { ... }`): run the forward pass on the entire
current sequence, take the last position's logits, select the argmax, append
it, and stop early when it equals `eos`.  Returns the final full sequence. -/
def decodeLoop (fw : List Nat → Except String (List (List ℚ))) (eos : Nat) :
    Nat → List Nat → Except ServiceError (List Nat)
  | 0, ids => .ok ids
  | fuel + 1, ids =>
    match fw ids with
    | .error e => .error (.inference e)
    | .ok logitsAll =>
      match logitsAll.getLast? with
      | none => .error (.inference "Unexpected model output format")
      | some lastLogits =>
        let next := argmax lastLogits
        let ids2 := ids ++ [next]
        if next = eos then .ok ids2
        else decodeLoop fw eos fuel ids2

/-- `tokens_per_second` computation at the end of `ModelInstance::generate`:
total tokens over elapsed seconds, falling back to the total token count when
elapsed time is zero.  `elapsedNanos` is the `Duration` in nanoseconds, so
`as_secs_f64()` is `elapsedNanos / 10^9`. -/
def tokens_per_second_calc (totalTokens elapsedNanos : Nat) : ℚ :=
  let secs : ℚ := (elapsedNanos : ℚ) / 1000000000
  if 0 < secs then (totalTokens : ℚ) / secs else (totalTokens : ℚ)

/-- `ModelInstance::generate` from `model/loader.rs`.  The wall-clock duration
of the decode loop is passed in as `elapsedNanos`.  The `_temperature` and
`_top_k` parameters are accepted and unused, exactly as in the source. -/
def ModelInstance.generate (inst : ModelInstance) (tok : Tokenizer)
    (prompt : String) (max_new_tokens : Nat) (_temperature : ℚ) (_top_k : Nat)
    (elapsedNanos : Nat) : Except ServiceError GenerationResponse :=
  if rust_trim prompt = "" then
    .error (.badRequest "prompt must not be empty")
  else
    match tok.encode prompt with
    | .error e => .error (.tokenizerErr e)
    | .ok ids0 =>
      let input_ids := if ids0.isEmpty then [0] else ids0
      let prompt_token_len := input_ids.length
      match decodeLoop inst.forward EOS_TOKEN_ID max_new_tokens input_ids with
      | .error e => .error e
      | .ok finalIds =>
        let generated_ids := finalIds.drop prompt_token_len
        let tokens_generated := generated_ids.length
        match tok.decode generated_ids with
        | .error e => .error (.tokenizerErr e)
        | .ok completion =>
          let total_tokens := prompt_token_len + tokens_generated
          .ok { prompt := prompt, completion := completion,
                tokens_generated := tokens_generated,
                total_time_ms := elapsedNanos / 1000000,
                tokens_per_second :=
                  tokens_per_second_calc total_tokens elapsedNanos,
                model := inst.metadata }

/-- `ModelArtifacts` from `model/loader.rs`: the tokenizer and the optional
quantized/baseline handles. -/
structure ModelArtifacts where
  tokenizer : Tokenizer
  quantized : Option ModelInstance
  baseline : Option ModelInstance

/-- `ModelArtifacts::load` from `model/loader.rs`.  The filesystem-dependent
steps are parameters: `tokRes` is the outcome of `Tokenizer::from_file` and
`baselineRes` the outcome of `ModelInstance::new` for the baseline module.
On success the store records the baseline handle and — by the hard-coded
placeholder in the source — no quantized handle. -/
def ModelArtifacts.load (tokRes : Except String Tokenizer)
    (baselineRes : Except ServiceError ModelInstance) :
    Except ServiceError ModelArtifacts :=
  match tokRes with
  | .error e => .error (.tokenizerErr e)
  | .ok tok =>
    match baselineRes with
    | .error e => .error e
    | .ok b => .ok { tokenizer := tok, quantized := none, baseline := some b }

/-- `ModelRegistry::has_baseline` from `model/registry.rs` (the registry is a
thin wrapper around its `ModelArtifacts`). -/
def has_baseline (arts : ModelArtifacts) : Bool :=
  arts.baseline.isSome

/-- `ModelRegistry::has_quantized` from `model/registry.rs`. -/
def has_quantized (arts : ModelArtifacts) : Bool :=
  arts.quantized.isSome

/-- `ModelRegistry::spawn_inference`: resolve the request's optional
generation parameters against the config defaults and run the blocking
`ModelInstance::generate` on a worker; `elapsedNanos` is the wall-clock
duration observed by that call. -/
def spawn_inference (arts : ModelArtifacts) (model : ModelInstance)
    (req : GenerationRequest) (config : AppConfig) (elapsedNanos : Nat) :
    Except ServiceError GenerationResponse :=
  model.generate arts.tokenizer req.prompt
    (req.max_new_tokens.getD config.max_new_tokens)
    (req.temperature.getD config.temperature)
    (req.top_k.getD config.top_k) elapsedNanos

/-- `ModelRegistry::generate_quantized` from `model/registry.rs`: fails with
`Other "Quantized model not available"` when no quantized handle exists. -/
def generate_quantized (arts : ModelArtifacts) (req : GenerationRequest)
    (config : AppConfig) (elapsedNanos : Nat) :
    Except ServiceError GenerationResponse :=
  match arts.quantized with
  | none => .error (.other "Quantized model not available")
  | some model => spawn_inference arts model req config elapsedNanos

/-- `ModelRegistry::generate_baseline` from `model/registry.rs`: fails with
`ModelLoading` when no baseline handle exists. -/
def generate_baseline (arts : ModelArtifacts) (req : GenerationRequest)
    (config : AppConfig) (elapsedNanos : Nat) :
    Except ServiceError GenerationResponse :=
  match arts.baseline with
  | none => .error .modelLoading
  | some model => spawn_inference arts model req config elapsedNanos

/-- The HTTP `generate` handler (`generate_quantized` in `server.rs`): use the
quantized model if available, otherwise fall back to the baseline. -/
def server_generate (arts : ModelArtifacts) (req : GenerationRequest)
    (config : AppConfig) (elapsedNanos : Nat) :
    Except ServiceError GenerationResponse :=
  if has_quantized arts then generate_quantized arts req config elapsedNanos
  else generate_baseline arts req config elapsedNanos

/-- `BenchmarkSample` from `evaluation.rs`. -/
structure BenchmarkSample where
  prompt : String
  reference_substring : Option String
deriving DecidableEq, Repr

/-- `SampleReport` from `evaluation.rs`. -/
structure SampleReport where
  prompt : String
  quantized : GenerationResponse
  baseline : Option GenerationResponse
  reference_match_quantized : Option Bool
  reference_match_baseline : Option Bool
deriving DecidableEq, Repr

/-- `AggregateMetrics` from `evaluation.rs` (`f64` as `ℚ`). -/
structure AggregateMetrics where
  quantized_avg_latency_ms : ℚ
  quantized_avg_tokens_per_s : ℚ
  baseline_avg_latency_ms : Option ℚ
  baseline_avg_tokens_per_s : Option ℚ
  quantized_reference_match_rate : Option ℚ
  baseline_reference_match_rate : Option ℚ
deriving DecidableEq, Repr

/-- `EvaluationReport` from `evaluation.rs`. -/
structure EvaluationReport where
  samples : List SampleReport
  aggregate : AggregateMetrics
deriving DecidableEq, Repr

/-- Rust `str::to_lowercase`, modelled character-wise. -/
def to_lowercase (s : String) : String :=
  String.mk (s.data.map Char.toLower)

/-- Contiguous-sublist test on character lists: `needle` occurs somewhere in
`hay` (Rust `str::contains` with a string pattern). -/
def list_has_infix (needle : List Char) : List Char → Bool
  | [] => needle.isEmpty
  | c :: rest => needle.isPrefixOf (c :: rest) || list_has_infix needle rest

/-- The case-insensitive reference check of `run_benchmark`:
`completion.to_lowercase().contains(&needle.to_lowercase())`. -/
def contains_ci (hay needle : String) : Bool :=
  list_has_infix (to_lowercase needle).data (to_lowercase hay).data

/-- `mean` from `evaluation.rs`: arithmetic mean, `0.0` on an empty input. -/
def mean (values : List ℚ) : ℚ :=
  if values.length = 0 then 0 else values.sum / (values.length : ℚ)

/-- `compute_match_rate` from `evaluation.rs`: `None` when there are zero
observations, otherwise matches over observations. -/
def compute_match_rate (values : List Bool) : Option ℚ :=
  let count := values.length
  let matchCount := (values.filter id).length
  if count = 0 then none else some ((matchCount : ℚ) / (count : ℚ))

/-- `summarize` from `evaluation.rs`. -/
def summarize (reports : List SampleReport) : AggregateMetrics :=
  let baseline_latencies := (reports.filterMap (fun r => r.baseline)).map
    (fun r => (r.total_time_ms : ℚ))
  let baseline_tps := (reports.filterMap (fun r => r.baseline)).map
    (fun r => r.tokens_per_second)
  { quantized_avg_latency_ms :=
      mean (reports.map (fun r => (r.quantized.total_time_ms : ℚ))),
    quantized_avg_tokens_per_s :=
      mean (reports.map (fun r => r.quantized.tokens_per_second)),
    baseline_avg_latency_ms :=
      if baseline_latencies.isEmpty then none
      else some (mean baseline_latencies),
    baseline_avg_tokens_per_s :=
      if baseline_tps.isEmpty then none else some (mean baseline_tps),
    quantized_reference_match_rate :=
      compute_match_rate
        (reports.filterMap (fun r => r.reference_match_quantized)),
    baseline_reference_match_rate :=
      compute_match_rate
        (reports.filterMap (fun r => r.reference_match_baseline)) }

/-- The per-sample request built inside `run_benchmark`'s loop. -/
def benchRequest (config : AppConfig) (prompt : String) : GenerationRequest :=
  { prompt := prompt, max_new_tokens := some config.max_new_tokens,
    temperature := some config.temperature, top_k := some config.top_k }

/-- The `for sample in samples` loop of `run_benchmark`, accumulating one
`SampleReport` per sample in order.  `nanosQ`/`nanosB` supply the wall-clock
duration of the quantized/baseline generation for the sample at each index
`i` (the clock is external). -/
def run_samples (arts : ModelArtifacts) (config : AppConfig)
    (nanosQ nanosB : Nat → Nat) :
    List BenchmarkSample → Nat → Except ServiceError (List SampleReport)
  | [], _ => .ok []
  | sample :: rest, i =>
    match generate_quantized arts (benchRequest config sample.prompt) config
        (nanosQ i) with
    | .error e => .error e
    | .ok quantized =>
      match (if has_baseline arts then
          (generate_baseline arts (benchRequest config sample.prompt) config
            (nanosB i)).map some
        else .ok none) with
      | .error e => .error e
      | .ok baseline =>
        let reference_match_quantized := sample.reference_substring.map
          (fun needle => contains_ci quantized.completion needle)
        let reference_match_baseline := sample.reference_substring.bind
          (fun needle => baseline.map
            (fun resp => contains_ci resp.completion needle))
        match run_samples arts config nanosQ nanosB rest (i + 1) with
        | .error e => .error e
        | .ok tail =>
          .ok ({ prompt := sample.prompt, quantized := quantized,
                 baseline := baseline,
                 reference_match_quantized := reference_match_quantized,
                 reference_match_baseline := reference_match_baseline } :: tail)

/-- `run_benchmark` from `evaluation.rs`: reject an empty sample list, run
every sample in input order, then aggregate. -/
def run_benchmark (arts : ModelArtifacts) (config : AppConfig)
    (samples : List BenchmarkSample) (nanosQ nanosB : Nat → Nat) :
    Except ServiceError EvaluationReport :=
  if samples.isEmpty then
    .error (.badRequest "at least one benchmark sample is required")
  else
    match run_samples arts config nanosQ nanosB samples 0 with
    | .error e => .error e
    | .ok reports =>
      .ok { samples := reports, aggregate := summarize reports }

/-- `QuantizationSummary` from `quantization.rs`. -/
structure QuantizationSummary where
  baseline_size_bytes : Option Nat
  quantized_size_bytes : Nat
  size_reduction_percent : Option ℚ
deriving DecidableEq, Repr

/-- `QuantizationSummary::from_metadata` from `quantization.rs`: percent size
reduction with the numerator saturating at zero (`u64::saturating_sub`, which
`Nat` subtraction mirrors) and a `0.0` result when the baseline size is
zero. -/
def QuantizationSummary.from_metadata (quantized : ModelMetadata)
    (baseline : Option ModelMetadata) : QuantizationSummary :=
  let baseline_size := baseline.map (fun m => m.size_bytes)
  let reduction := baseline_size.map (fun b =>
    if b = 0 then (0 : ℚ)
    else ((b - quantized.size_bytes : Nat) : ℚ) / (b : ℚ) * 100)
  { baseline_size_bytes := baseline_size,
    quantized_size_bytes := quantized.size_bytes,
    size_reduction_percent := reduction }

/-- A parsed JSON value (`serde_json::Value`); numbers are irrelevant to the
embedded code paths and carried as `ℚ`. -/
inductive Json where
  | null
  | bool (b : Bool)
  | num (q : ℚ)
  | str (s : String)
  | arr (items : List Json)
  | obj (fields : List (String × Json))
deriving Repr

/-- `serde_json::Value::get` with a string key: field lookup on an object,
`None` on anything else. -/
def json_get (v : Json) (key : String) : Option Json :=
  match v with
  | .obj fields => (fields.find? (fun p => p.1 == key)).map (fun p => p.2)
  | _ => none

/-- `serde_json::Value::as_str`. -/
def json_as_str (v : Json) : Option String :=
  match v with
  | .str s => some s
  | _ => none

/-- The `for (idx, item) in items.into_iter().enumerate()` loop of
`load_samples_from_path`: fail with `BadRequest` naming the index of the
first entry lacking a string field `"prompt"`. -/
def sample_entries : Nat → List Json → Except ServiceError (List BenchmarkSample)
  | _, [] => .ok []
  | idx, item :: rest =>
    match (json_get item "prompt").bind json_as_str with
    | none =>
      .error (.badRequest
        ("benchmark item " ++ toString idx ++ " missing string field 'prompt'"))
    | some prompt =>
      let reference_substring :=
        (json_get item "reference_substring").bind json_as_str
      match sample_entries (idx + 1) rest with
      | .error e => .error e
      | .ok tail =>
        .ok ({ prompt := prompt,
               reference_substring := reference_substring } :: tail)

/-- The `match value` step of `load_samples_from_path`: the top-level JSON
value must be an array. -/
def parse_samples (value : Json) : Except ServiceError (List BenchmarkSample) :=
  match value with
  | .arr items => sample_entries 0 items
  | _ => .error (.badRequest "benchmark file must be a JSON array")

/-- `load_samples_from_path` from `evaluation.rs`.  The filesystem read and
the `serde_json` text parser are external collaborators, passed in as the
outcome `readRes` of `fs::read_to_string` and the parser `parse`. -/
def load_samples_from_path (readRes : Except String String)
    (parse : String → Except String Json) :
    Except ServiceError (List BenchmarkSample) :=
  match readRes with
  | .error e => .error (.ioErr e)
  | .ok raw =>
    match parse raw with
    | .error e => .error (.badRequest ("invalid benchmark file: " ++ e))
    | .ok value => parse_samples value

/-! Concrete fixtures (a trivial tokenizer, small handles, sample data) used
to instantiate the theorems below on closed inputs. -/

/-- A tokenizer that encodes every prompt to `[0]` and decodes every id list
to the empty string. -/
def sampleTok : Tokenizer :=
  { encode := fun _ => .ok [0], decode := fun _ => .ok "" }

/-- A handle whose forward pass always scores token id 1 highest, so the
decode loop never selects the end-of-sequence id. -/
def unitInst : ModelInstance :=
  { name := "baseline", quantized := false, dtype := "float32",
    size_bytes := 10, forward := fun _ => .ok [[0, 1]] }

/-- A handle whose forward pass puts its maximum at index 50256, the
hard-coded end-of-sequence id, so the very first decode step selects EOS. -/
def eosInst : ModelInstance :=
  { name := "baseline", quantized := false, dtype := "float32",
    size_bytes := 10,
    forward := fun _ => .ok [List.replicate 50256 (0 : ℚ) ++ [1]] }

/-- A small config fixture. -/
def cfgFix : AppConfig := { max_new_tokens := 2, temperature := 0, top_k := 0 }

/-- An artifact store holding only a quantized handle. -/
def artsQuantFix : ModelArtifacts :=
  { tokenizer := sampleTok, quantized := some unitInst, baseline := none }

/-- The artifact store `ModelArtifacts.load (.ok sampleTok) (.ok unitInst)`
produces. -/
def artsLoadFix : ModelArtifacts :=
  { tokenizer := sampleTok, quantized := none, baseline := some unitInst }

/-- The response `unitInst` produces for prompt `"p"` with two decode steps
and zero elapsed time. -/
def respUnit : GenerationResponse :=
  { prompt := "p", completion := "", tokens_generated := 2, total_time_ms := 0,
    tokens_per_second := tokens_per_second_calc 3 0,
    model := unitInst.metadata }

/-- A sample report carrying no reference observation on either path. -/
def reportNoRef : SampleReport :=
  { prompt := "p", quantized := respUnit, baseline := none,
    reference_match_quantized := none, reference_match_baseline := none }

/-- A benchmark-file entry with a string `"prompt"` field. -/
def entryAlpha : Json := .obj [("prompt", .str "alpha")]

/-- A second well-formed benchmark-file entry. -/
def entryBeta : Json :=
  .obj [("prompt", .str "beta"), ("reference_substring", .str "b")]

/-- A benchmark-file entry lacking the `"prompt"` field. -/
def entryNoPrompt : Json := .obj [("reference_substring", .str "c")]

/-! Helper lemmas shared by the claim theorems. -/

/-- A string all of whose characters are whitespace trims to the empty
string. -/
theorem rust_trim_of_all_ws (s : String)
    (h : ∀ c ∈ s.data, is_rust_whitespace c) : rust_trim s = "" := by
  unfold rust_trim
  rw [List.dropWhile_eq_nil_iff.mpr h]
  rfl

/-- C4: for every prompt consisting only of whitespace characters (the empty
string included), `ModelInstance::generate` fails with
`BadRequest "prompt must not be empty"`, uniformly in the handle, the
tokenizer, and every other argument — so no tokenizer or forward-pass call
can influence (or be required for) the outcome. -/
theorem C4_whitespace_prompt_rejected (inst : ModelInstance) (tok : Tokenizer)
    (prompt : String) (h : ∀ c ∈ prompt.data, is_rust_whitespace c)
    (fuel : Nat) (t : ℚ) (k : Nat) (nanos : Nat) :
    inst.generate tok prompt fuel t k nanos =
      .error (.badRequest "prompt must not be empty") := by
  unfold ModelInstance.generate
  rw [rust_trim_of_all_ws prompt h]
  simp

/-- Witness for C4 at the one-space prompt. -/
theorem C4_witness :
    unitInst.generate sampleTok " " 2 0 0 0 =
      .error (.badRequest "prompt must not be empty") :=
  C4_whitespace_prompt_rejected unitInst sampleTok " " (by decide) 2 0 0 0

/-- C5: with `max_new_tokens = 0`, a non-whitespace prompt that the tokenizer
encodes successfully generates the empty completion and zero tokens (the
tokenizer decoding the empty id list to the empty string). -/
theorem C5_zero_budget_empty_completion (inst : ModelInstance)
    (tok : Tokenizer) (prompt : String) (t : ℚ) (k : Nat) (nanos : Nat)
    (ids0 : List Nat) (hp : ¬ rust_trim prompt = "")
    (henc : tok.encode prompt = .ok ids0)
    (hdec : tok.decode [] = .ok "") :
    ∃ r, inst.generate tok prompt 0 t k nanos = .ok r ∧
      r.completion = "" ∧ r.tokens_generated = 0 := by
  unfold ModelInstance.generate
  rw [if_neg hp, henc]
  simp only [decodeLoop, List.drop_length, hdec]
  exact ⟨_, rfl, rfl, rfl⟩

/-- Witness for C5 at prompt `"p"` and the fixture tokenizer. -/
theorem C5_witness :
    ∃ r, unitInst.generate sampleTok "p" 0 0 0 0 = .ok r ∧
      r.completion = "" ∧ r.tokens_generated = 0 :=
  C5_zero_budget_empty_completion unitInst sampleTok "p" 0 0 0 [0]
    (by decide) rfl rfl

/-- One step of the decode loop: when the forward pass succeeds and the
last-position logits exist, the selected token is the argmax of those logits,
it is appended, and the loop stops exactly when it equals `eos`. -/
theorem decodeLoop_step (fw : List Nat → Except String (List (List ℚ)))
    (eos fuel : Nat) (ids : List Nat) (logitsAll : List (List ℚ))
    (lastLogits : List ℚ) (hfw : fw ids = .ok logitsAll)
    (hlast : logitsAll.getLast? = some lastLogits) :
    decodeLoop fw eos (fuel + 1) ids =
      (if argmax lastLogits = eos then .ok (ids ++ [argmax lastLogits])
       else decodeLoop fw eos fuel (ids ++ [argmax lastLogits])) := by
  conv_lhs => rw [decodeLoop]
  simp only [hfw, hlast]

/-- C7: generation is invariant under the `temperature` and `top_k`
arguments (they are accepted and unused), and each decode step's selection is
exactly the argmax of the forward pass's last-position logits. -/
theorem C7_greedy_ignores_sampling_params :
    (∀ (inst : ModelInstance) (tok : Tokenizer) (prompt : String)
        (fuel : Nat) (t₁ t₂ : ℚ) (k₁ k₂ nanos : Nat),
        inst.generate tok prompt fuel t₁ k₁ nanos =
          inst.generate tok prompt fuel t₂ k₂ nanos) ∧
    (∀ (fw : List Nat → Except String (List (List ℚ))) (eos fuel : Nat)
        (ids : List Nat) (logitsAll : List (List ℚ)) (lastLogits : List ℚ),
        fw ids = .ok logitsAll → logitsAll.getLast? = some lastLogits →
        decodeLoop fw eos (fuel + 1) ids =
          (if argmax lastLogits = eos then .ok (ids ++ [argmax lastLogits])
           else decodeLoop fw eos fuel (ids ++ [argmax lastLogits]))) := by
  constructor
  · intro inst tok prompt fuel t₁ t₂ k₁ k₂ nanos
    rfl
  · intro fw eos fuel ids logitsAll lastLogits hfw hlast
    exact decodeLoop_step fw eos fuel ids logitsAll lastLogits hfw hlast

/-- Witness for C7: the second conjunct instantiated at a one-step decode. -/
theorem C7_witness :
    decodeLoop unitInst.forward 50256 (0 + 1) [0] =
      (if argmax [0, 1] = 50256 then .ok ([0] ++ [argmax [0, 1]])
       else decodeLoop unitInst.forward 50256 0 ([0] ++ [argmax [0, 1]])) :=
  C7_greedy_ignores_sampling_params.2 unitInst.forward 50256 0 [0]
    [[0, 1]] [0, 1] rfl rfl

/-- C8: when no sample supplied a reference observation on a path, the
aggregate reference-match rate for that path is `none`, not zero; with at
least one observation it is matches over observations. -/
theorem C8_match_rate_absent_not_zero :
    (∀ reports : List SampleReport,
        (∀ r ∈ reports, r.reference_match_quantized = none) →
        (summarize reports).quantized_reference_match_rate = none) ∧
    (∀ reports : List SampleReport,
        (∀ r ∈ reports, r.reference_match_baseline = none) →
        (summarize reports).baseline_reference_match_rate = none) ∧
    (∀ values : List Bool, values ≠ [] →
        compute_match_rate values =
          some (((values.filter id).length : ℚ) / (values.length : ℚ))) := by
  refine ⟨?_, ?_, ?_⟩
  · intro reports h
    have : reports.filterMap (fun r => r.reference_match_quantized) = [] :=
      List.filterMap_eq_nil_iff.mpr h
    simp [summarize, this, compute_match_rate]
  · intro reports h
    have : reports.filterMap (fun r => r.reference_match_baseline) = [] :=
      List.filterMap_eq_nil_iff.mpr h
    simp [summarize, this, compute_match_rate]
  · intro values h
    unfold compute_match_rate
    rw [if_neg (by simpa using List.length_eq_zero.not.mpr h)]

/-- Witness for C8 at a one-report list without references and a two-element
observation list. -/
theorem C8_witness :
    (summarize [reportNoRef]).quantized_reference_match_rate = none ∧
    compute_match_rate [true, false] =
      some ((([true, false].filter id).length : ℚ) /
        (([true, false] : List Bool).length : ℚ)) :=
  ⟨C8_match_rate_absent_not_zero.1 [reportNoRef] (by decide),
   C8_match_rate_absent_not_zero.2.2 [true, false] (by decide)⟩

/-- C9: `QuantizationSummary::from_metadata` yields no reduction without
baseline metadata, `0` reduction for a zero baseline size, the saturating
percentage formula otherwise, and in particular `10` percent for quantized
size 900 against baseline size 1000. -/
theorem C9_size_reduction_percent :
    (∀ mq : ModelMetadata,
        (QuantizationSummary.from_metadata mq none).size_reduction_percent =
          none) ∧
    (∀ mq mb : ModelMetadata, mb.size_bytes = 0 →
        (QuantizationSummary.from_metadata mq
          (some mb)).size_reduction_percent = some 0) ∧
    (∀ mq mb : ModelMetadata, mb.size_bytes ≠ 0 →
        (QuantizationSummary.from_metadata mq
          (some mb)).size_reduction_percent =
          some (((mb.size_bytes - mq.size_bytes : Nat) : ℚ) /
            (mb.size_bytes : ℚ) * 100)) ∧
    (QuantizationSummary.from_metadata
        { name := "quantized", quantized := true, dtype := "int8",
          size_bytes := 900 }
        (some { name := "baseline", quantized := false, dtype := "float32",
                size_bytes := 1000 })).size_reduction_percent = some 10 := by
  refine ⟨?_, ?_, ?_, ?_⟩
  · intro mq; rfl
  · intro mq mb h; simp [QuantizationSummary.from_metadata, h]
  · intro mq mb h; simp [QuantizationSummary.from_metadata, h]
  · norm_num [QuantizationSummary.from_metadata]

/-- Witness for C9's quantified conjuncts at concrete metadata. -/
theorem C9_witness :
    (QuantizationSummary.from_metadata
        { name := "q", quantized := true, dtype := "int8", size_bytes := 900 }
        (some { name := "b", quantized := false, dtype := "float32",
                size_bytes := 0 })).size_reduction_percent = some 0 ∧
    (QuantizationSummary.from_metadata
        { name := "q", quantized := true, dtype := "int8", size_bytes := 900 }
        (some { name := "b", quantized := false, dtype := "float32",
                size_bytes := 1000 })).size_reduction_percent =
      some ((((1000 - 900 : Nat) : ℚ)) / ((1000 : Nat) : ℚ) * 100) :=
  ⟨C9_size_reduction_percent.2.1 _ _ rfl,
   C9_size_reduction_percent.2.2.1 _ _ (by decide)⟩

/-- The entry loop of `load_samples_from_path` fails at the first entry
lacking a string `"prompt"` field, naming its index (offset by the loop's
starting index). -/
theorem sample_entries_first_missing (pre : List Json) :
    ∀ (idx : Nat) (item : Json) (rest : List Json),
    (∀ p ∈ pre, ((json_get p "prompt").bind json_as_str).isSome = true) →
    (json_get item "prompt").bind json_as_str = none →
    sample_entries idx (pre ++ item :: rest) =
      .error (.badRequest ("benchmark item " ++ toString (idx + pre.length) ++
        " missing string field 'prompt'")) := by
  induction pre with
  | nil =>
    intro idx item rest _ hmiss
    simp only [List.nil_append, sample_entries, hmiss, List.length_nil,
      Nat.add_zero]
  | cons p pre ih =>
    intro idx item rest hpre hmiss
    obtain ⟨s, hs⟩ := Option.isSome_iff_exists.mp
      (hpre p (List.mem_cons_self p pre))
    have htail := ih (idx + 1) item rest
      (fun q hq => hpre q (List.mem_cons_of_mem p hq)) hmiss
    rw [List.cons_append]
    rw [sample_entries, hs, htail]
    have h2 : idx + 1 + pre.length = idx + (p :: pre).length := by
      simp only [List.length_cons]; omega
    rw [h2]

/-- C10: `load_samples_from_path` (its post-parse stage `parse_samples`)
rejects a non-array top-level value with `BadRequest`, fails with a
`BadRequest` naming the zero-based index of the first entry lacking a string
`"prompt"` field, and in particular names index 2 when the third entry lacks
it; and the wrapper reduces to `parse_samples` once the read and the JSON
text parse succeed. -/
theorem C10_sample_file_validation :
    (∀ v : Json, (∀ items, v ≠ .arr items) →
        parse_samples v =
          .error (.badRequest "benchmark file must be a JSON array")) ∧
    (∀ (pre : List Json) (item : Json) (rest : List Json),
        (∀ p ∈ pre, ((json_get p "prompt").bind json_as_str).isSome = true) →
        (json_get item "prompt").bind json_as_str = none →
        parse_samples (.arr (pre ++ item :: rest)) =
          .error (.badRequest ("benchmark item " ++ toString pre.length ++
            " missing string field 'prompt'"))) ∧
    (parse_samples (.arr [entryAlpha, entryBeta, entryNoPrompt]) =
        .error (.badRequest "benchmark item 2 missing string field 'prompt'")) ∧
    (∀ (readRes : Except String String) (parse : String → Except String Json)
        (raw : String) (v : Json), readRes = .ok raw → parse raw = .ok v →
        load_samples_from_path readRes parse = parse_samples v) := by
  refine ⟨?_, ?_, ?_, ?_⟩
  · intro v h
    cases v with
    | arr items => exact absurd rfl (h items)
    | null => rfl
    | bool b => rfl
    | num q => rfl
    | str s => rfl
    | obj fields => rfl
  · intro pre item rest hpre hmiss
    have := sample_entries_first_missing pre 0 item rest hpre hmiss
    simpa [parse_samples] using this
  · rfl
  · intro readRes parse raw v hread hparse
    simp [load_samples_from_path, hread, hparse]

/-- Witness for C10: first conjunct at a string top-level value, second at a
list whose third entry is the first one lacking `"prompt"`. -/
theorem C10_witness :
    parse_samples (.str "nope") =
      .error (.badRequest "benchmark file must be a JSON array") ∧
    parse_samples (.arr ([entryAlpha, entryBeta] ++ entryNoPrompt :: [])) =
      .error (.badRequest ("benchmark item " ++
        toString ([entryAlpha, entryBeta] : List Json).length ++
        " missing string field 'prompt'")) :=
  ⟨C10_sample_file_validation.1 (.str "nope") (fun _ h => Json.noConfusion h),
   C10_sample_file_validation.2.1 [entryAlpha, entryBeta] entryNoPrompt []
     (by intro p hp
         simp only [List.mem_cons, List.not_mem_nil, or_false] at hp
         rcases hp with h | h <;> subst h <;> rfl)
     rfl⟩

/-- When every per-sample generation call succeeds, the benchmark loop
succeeds and produces one report per sample, in input order (witnessed by the
reports' prompts matching the samples' prompts position by position). -/
theorem run_samples_ok (arts : ModelArtifacts) (config : AppConfig)
    (nanosQ nanosB : Nat → Nat) :
    ∀ (samples : List BenchmarkSample) (i : Nat),
    (∀ j s, samples[j]? = some s →
      (∃ q, generate_quantized arts (benchRequest config s.prompt) config
          (nanosQ (i + j)) = .ok q) ∧
      (has_baseline arts = true →
        ∃ b, generate_baseline arts (benchRequest config s.prompt) config
          (nanosB (i + j)) = .ok b)) →
    ∃ reports, run_samples arts config nanosQ nanosB samples i = .ok reports ∧
      reports.map (fun r => r.prompt) = samples.map (fun s => s.prompt) := by
  intro samples
  induction samples with
  | nil => exact fun i _ => ⟨[], rfl, rfl⟩
  | cons sample rest ih =>
    intro i h
    obtain ⟨⟨q, hq⟩, hb⟩ := h 0 sample (by simp)
    rw [Nat.add_zero] at hq hb
    have h' : ∀ j s, rest[j]? = some s →
        (∃ q, generate_quantized arts (benchRequest config s.prompt) config
            (nanosQ ((i + 1) + j)) = .ok q) ∧
        (has_baseline arts = true →
          ∃ b, generate_baseline arts (benchRequest config s.prompt) config
            (nanosB ((i + 1) + j)) = .ok b) := by
      intro j s hjs
      have := h (j + 1) s (by simpa using hjs)
      rwa [show i + (j + 1) = (i + 1) + j by omega] at this
    obtain ⟨tailReports, htail, hmap⟩ := ih (i + 1) h'
    have hstep : ∃ rep, run_samples arts config nanosQ nanosB
        (sample :: rest) i = .ok (rep :: tailReports) ∧
        rep.prompt = sample.prompt := by
      cases hbl : has_baseline arts with
      | false =>
        rw [run_samples, hq, hbl]
        simp only [Bool.false_eq_true, if_false, htail]
        exact ⟨_, rfl, rfl⟩
      | true =>
        obtain ⟨b, hbres⟩ := hb hbl
        rw [run_samples, hq, hbl]
        simp only [if_true, hbres, Except.map, htail]
        exact ⟨_, rfl, rfl⟩
    obtain ⟨rep, hstep, hrp⟩ := hstep
    exact ⟨rep :: tailReports, hstep, by simp [hmap, hrp]⟩

/-- C1: `run_benchmark` rejects the empty sample list with `BadRequest`, and
on a non-empty list whose per-sample generation calls all succeed it returns
one `SampleReport` per input sample, in input order. -/
theorem C1_run_benchmark_shape :
    (∀ arts config nanosQ nanosB,
        run_benchmark arts config [] nanosQ nanosB =
          .error (.badRequest "at least one benchmark sample is required")) ∧
    (∀ arts config (samples : List BenchmarkSample) nanosQ nanosB,
        samples ≠ [] →
        (∀ j s, samples[j]? = some s →
          (∃ q, generate_quantized arts (benchRequest config s.prompt) config
              (nanosQ j) = .ok q) ∧
          (has_baseline arts = true →
            ∃ b, generate_baseline arts (benchRequest config s.prompt) config
              (nanosB j) = .ok b)) →
        ∃ report, run_benchmark arts config samples nanosQ nanosB =
            .ok report ∧
          report.samples.map (fun r => r.prompt) =
            samples.map (fun s => s.prompt)) := by
  constructor
  · intro arts config nanosQ nanosB
    rfl
  · intro arts config samples nanosQ nanosB hne h
    have h0 : ∀ j s, samples[j]? = some s →
        (∃ q, generate_quantized arts (benchRequest config s.prompt) config
            (nanosQ (0 + j)) = .ok q) ∧
        (has_baseline arts = true →
          ∃ b, generate_baseline arts (benchRequest config s.prompt) config
            (nanosB (0 + j)) = .ok b) := by
      intro j s hjs
      simpa using h j s hjs
    obtain ⟨reports, hrun, hmap⟩ :=
      run_samples_ok arts config nanosQ nanosB samples 0 h0
    refine ⟨{ samples := reports, aggregate := summarize reports }, ?_, ?_⟩
    · rw [run_benchmark, if_neg (by simpa [List.isEmpty_iff] using hne), hrun]
    · simpa using hmap

/-- Witness for C1's second conjunct at a one-sample list against a store
holding a quantized handle. -/
theorem C1_witness :
    ∃ report, run_benchmark artsQuantFix cfgFix [⟨"p", none⟩]
        (fun _ => 0) (fun _ => 0) = .ok report ∧
      report.samples.map (fun r => r.prompt) =
        ([⟨"p", none⟩] : List BenchmarkSample).map (fun s => s.prompt) :=
  C1_run_benchmark_shape.2 artsQuantFix cfgFix [⟨"p", none⟩]
    (fun _ => 0) (fun _ => 0) (by decide)
    (by
      intro j s hj
      match j, hj with
      | 0, hj =>
        have hs : s = ⟨"p", none⟩ := by simpa using hj.symm
        subst hs
        exact ⟨⟨respUnit, by rfl⟩, fun hbt => absurd hbt (by decide)⟩
      | j + 1, hj => simp at hj)

/-- C2: every store a successful `ModelArtifacts::load` produces has no
quantized handle, so `has_quantized` is `false`; consequently `run_benchmark`
on any non-empty sample list fails with the
`Other "Quantized model not available"` error (the harness calls the
quantized path directly), while the HTTP generate handler — and only it —
falls back to the baseline path. -/
theorem C2_quantized_never_available (tokRes : Except String Tokenizer)
    (baseRes : Except ServiceError ModelInstance) (arts : ModelArtifacts)
    (hload : ModelArtifacts.load tokRes baseRes = .ok arts) :
    has_quantized arts = false ∧
    (∀ config (samples : List BenchmarkSample) nanosQ nanosB, samples ≠ [] →
        run_benchmark arts config samples nanosQ nanosB =
          .error (.other "Quantized model not available")) ∧
    (∀ req config nanos,
        server_generate arts req config nanos =
          generate_baseline arts req config nanos) := by
  have hq : arts.quantized = none := by
    cases tokRes with
    | error e => simp [ModelArtifacts.load] at hload
    | ok tok =>
      cases baseRes with
      | error e => simp [ModelArtifacts.load] at hload
      | ok b =>
        simp only [ModelArtifacts.load, Except.ok.injEq] at hload
        rw [← hload]
  refine ⟨?_, ?_, ?_⟩
  · simp [has_quantized, hq]
  · intro config samples nanosQ nanosB hne
    obtain ⟨s, rest, rfl⟩ := List.exists_cons_of_ne_nil hne
    rw [run_benchmark]
    simp [run_samples, generate_quantized, hq]
  · intro req config nanos
    rw [server_generate]
    simp [has_quantized, hq]

/-- Witness for C2 at a concrete successful load and a one-sample list. -/
theorem C2_witness :
    has_quantized artsLoadFix = false ∧
    run_benchmark artsLoadFix cfgFix [⟨"p", none⟩]
        (fun _ => 0) (fun _ => 0) =
      .error (.other "Quantized model not available") :=
  ⟨(C2_quantized_never_available (.ok sampleTok) (.ok unitInst)
      artsLoadFix rfl).1,
   (C2_quantized_never_available (.ok sampleTok) (.ok unitInst)
      artsLoadFix rfl).2.1 cfgFix [⟨"p", none⟩]
      (fun _ => 0) (fun _ => 0) (by decide)⟩

/-- Inversion of a successful `ModelInstance::generate`: it decomposes into a
successful encode, a successful decode loop, a successful decode of the
generated suffix, and the response record built from them. -/
theorem generate_ok_inversion (inst : ModelInstance) (tok : Tokenizer)
    (prompt : String) (fuel : Nat) (t : ℚ) (k nanos : Nat)
    (r : GenerationResponse)
    (h : inst.generate tok prompt fuel t k nanos = .ok r) :
    ∃ ids0 finalIds completion,
      tok.encode prompt = .ok ids0 ∧
      decodeLoop inst.forward EOS_TOKEN_ID fuel
        (if ids0.isEmpty then [0] else ids0) = .ok finalIds ∧
      tok.decode (finalIds.drop (if ids0.isEmpty then [0] else ids0).length) =
        .ok completion ∧
      r = { prompt := prompt, completion := completion,
            tokens_generated := (finalIds.drop
              (if ids0.isEmpty then [0] else ids0).length).length,
            total_time_ms := nanos / 1000000,
            tokens_per_second := tokens_per_second_calc
              ((if ids0.isEmpty then [0] else ids0).length +
                (finalIds.drop
                  (if ids0.isEmpty then [0] else ids0).length).length) nanos,
            model := inst.metadata } := by
  unfold ModelInstance.generate at h
  split at h
  · exact absurd h (by simp)
  · cases henc : tok.encode prompt with
    | error e => rw [henc] at h; simp at h
    | ok ids0 =>
      rw [henc] at h
      dsimp only at h
      cases hdl : decodeLoop inst.forward EOS_TOKEN_ID fuel
          (if ids0.isEmpty then [0] else ids0) with
      | error e => rw [hdl] at h; simp at h
      | ok finalIds =>
        rw [hdl] at h
        dsimp only at h
        cases hdec : tok.decode (finalIds.drop
            (if ids0.isEmpty then [0] else ids0).length) with
        | error e => rw [hdec] at h; simp at h
        | ok completion =>
          rw [hdec] at h
          simp only [Except.ok.injEq] at h
          exact ⟨ids0, finalIds, completion, rfl, hdl, hdec, h.symm⟩

/-- C6: for every successful generation with a successful encode,
`tokens_per_second` is non-negative (finiteness is inherent to the embedding
in `ℚ`, and the source guards the division so no infinity can arise); it
equals (prompt tokens + generated tokens) over elapsed seconds when elapsed
time is positive, and the total token count when elapsed time is zero. -/
theorem C6_tokens_per_second_spec (inst : ModelInstance) (tok : Tokenizer)
    (prompt : String) (fuel : Nat) (t : ℚ) (k nanos : Nat)
    (r : GenerationResponse) (ids0 : List Nat)
    (henc : tok.encode prompt = .ok ids0)
    (h : inst.generate tok prompt fuel t k nanos = .ok r) :
    0 ≤ r.tokens_per_second ∧
    (0 < nanos → r.tokens_per_second =
      (((if ids0.isEmpty then [0] else ids0).length +
          r.tokens_generated : Nat) : ℚ) / ((nanos : ℚ) / 1000000000)) ∧
    (nanos = 0 → r.tokens_per_second =
      (((if ids0.isEmpty then [0] else ids0).length +
          r.tokens_generated : Nat) : ℚ)) := by
  obtain ⟨ids0', finalIds, completion, henc', hdl, hdec, hr⟩ :=
    generate_ok_inversion inst tok prompt fuel t k nanos r h
  have hids : ids0' = ids0 := by
    rw [henc] at henc'
    exact (Except.ok.inj henc').symm
  subst hids
  subst hr
  unfold tokens_per_second_calc
  refine ⟨?_, ?_, ?_⟩
  · dsimp only
    split
    · positivity
    · positivity
  · intro hn
    have hpos : 0 < ((nanos : ℚ) / 1000000000) := by
      apply div_pos
      · exact_mod_cast hn
      · norm_num
    dsimp only
    rw [if_pos hpos]
  · intro hn
    subst hn
    dsimp only
    rw [if_neg (by norm_num)]

/-- Witness for C6 at a concrete generation with zero elapsed time. -/
theorem C6_witness :
    0 ≤ respUnit.tokens_per_second ∧
    ((0 : Nat) < 0 → respUnit.tokens_per_second =
      (((if ([0] : List Nat).isEmpty then [0] else [0]).length +
          respUnit.tokens_generated : Nat) : ℚ) / (((0 : Nat) : ℚ) / 1000000000)) ∧
    ((0 : Nat) = 0 → respUnit.tokens_per_second =
      (((if ([0] : List Nat).isEmpty then [0] else [0]).length +
          respUnit.tokens_generated : Nat) : ℚ)) :=
  C6_tokens_per_second_spec unitInst sampleTok "p" 2 0 0 0 respUnit [0]
    rfl (by rfl)

/-- The argmax fold over `n` zeros followed by a one lands on the one. -/
theorem argmaxIdx_go_replicate (n : Nat) :
    ∀ (best next : Nat) (bv : ℚ), bv < 1 → ¬ bv < 0 →
    argmaxIdx.go best bv next (List.replicate n 0 ++ [1]) = next + n := by
  induction n with
  | zero =>
    intro best next bv h1 h0
    rw [show (List.replicate 0 (0 : ℚ) ++ [1]) = [1] from rfl]
    rw [argmaxIdx.go, if_pos h1, argmaxIdx.go]
    omega
  | succ n ih =>
    intro best next bv h1 h0
    rw [List.replicate_succ, List.cons_append, argmaxIdx.go, if_neg h0,
      ih best (next + 1) bv h1 h0]
    omega

/-- The logit vector with its maximum at index 50256 selects the
end-of-sequence id. -/
theorem argmax_eos_logits :
    argmax (List.replicate 50256 (0 : ℚ) ++ [1]) = 50256 := by
  have h : List.replicate 50256 (0 : ℚ) ++ [1] =
      0 :: (List.replicate 50255 (0 : ℚ) ++ [1]) := by
    rw [List.replicate_succ, List.cons_append]
  rw [h]
  show argmaxIdx.go 0 0 1 (List.replicate 50255 (0 : ℚ) ++ [1]) = 50256
  rw [argmaxIdx_go_replicate 50255 0 1 0 (by norm_num) (by norm_num)]

/-- Structure of a successful decode loop: the output extends the input by a
generated block of at most `fuel` tokens; the block ends in `eos` whenever it
is shorter than `fuel`; and `eos` never occurs before the block's last
position. -/
theorem decodeLoop_ok_structure
    (fw : List Nat → Except String (List (List ℚ))) (eos : Nat) :
    ∀ (fuel : Nat) (ids out : List Nat),
    decodeLoop fw eos fuel ids = .ok out →
    ∃ gen, out = ids ++ gen ∧ gen.length ≤ fuel ∧
      (gen.length < fuel → ∃ g, gen = g ++ [eos]) ∧
      (∀ i, i + 1 < gen.length → gen[i]? ≠ some eos) := by
  intro fuel
  induction fuel with
  | zero =>
    intro ids out h
    rw [decodeLoop] at h
    refine ⟨[], by simpa using (Except.ok.inj h).symm, Nat.le_refl 0,
      fun hlt => absurd hlt (by omega), fun i hi => by simp at hi⟩
  | succ fuel ih =>
    intro ids out h
    rw [decodeLoop] at h
    cases hfw : fw ids with
    | error e => rw [hfw] at h; simp at h
    | ok logitsAll =>
      rw [hfw] at h
      dsimp only at h
      cases hlast : logitsAll.getLast? with
      | none => rw [hlast] at h; simp at h
      | some lastLogits =>
        rw [hlast] at h
        dsimp only at h
        by_cases heos : argmax lastLogits = eos
        · rw [if_pos heos] at h
          have hout : ids ++ [argmax lastLogits] = out := Except.ok.inj h
          refine ⟨[argmax lastLogits], hout.symm, by simp, ?_, ?_⟩
          · intro _
            exact ⟨[], by rw [heos]; rfl⟩
          · intro i hi
            simp at hi
        · rw [if_neg heos] at h
          obtain ⟨gen2, hout, hlen, hend, hinterior⟩ :=
            ih (ids ++ [argmax lastLogits]) out h
          refine ⟨argmax lastLogits :: gen2, ?_, ?_, ?_, ?_⟩
          · rw [hout]; simp
          · simpa using Nat.succ_le_succ hlen
          · intro hlt
            obtain ⟨g, hg⟩ := hend (by simpa using hlt)
            exact ⟨argmax lastLogits :: g, by rw [hg]; rfl⟩
          · intro i hi
            cases i with
            | zero =>
              simp only [List.getElem?_cons_zero]
              intro hcontra
              exact heos (Option.some.inj hcontra)
            | succ i =>
              simp only [List.getElem?_cons_succ]
              exact hinterior i (by simpa using hi)

/-- Forward composition of a successful `ModelInstance::generate` from its
components: a non-whitespace prompt, a successful encode, a successful decode
loop and a successful decode of the generated suffix. -/
theorem generate_eq_of_components (inst : ModelInstance) (tok : Tokenizer)
    (prompt : String) (fuel : Nat) (t : ℚ) (k nanos : Nat) (ids0 : List Nat)
    (finalIds : List Nat) (completion : String)
    (hp : ¬ rust_trim prompt = "") (henc : tok.encode prompt = .ok ids0)
    (hdl : decodeLoop inst.forward EOS_TOKEN_ID fuel
      (if ids0.isEmpty then [0] else ids0) = .ok finalIds)
    (hdec : tok.decode (finalIds.drop
      (if ids0.isEmpty then [0] else ids0).length) = .ok completion) :
    inst.generate tok prompt fuel t k nanos =
      .ok { prompt := prompt, completion := completion,
            tokens_generated := (finalIds.drop
              (if ids0.isEmpty then [0] else ids0).length).length,
            total_time_ms := nanos / 1000000,
            tokens_per_second := tokens_per_second_calc
              ((if ids0.isEmpty then [0] else ids0).length +
                (finalIds.drop
                  (if ids0.isEmpty then [0] else ids0).length).length) nanos,
            model := inst.metadata } := by
  unfold ModelInstance.generate
  rw [if_neg hp, henc]
  dsimp only
  rw [hdl]
  dsimp only
  rw [hdec]

/-- C3 (amended): when the decode loop selects the end-of-sequence id at
0-based step `i`, the loop stops at that step — the generated block has
exactly `i + 1` tokens and `i + 1 ≤ max_new_tokens` — so the count is
truncated (strictly below `max_new_tokens`) exactly when EOS arrives before
the final permitted iteration; and every successful generation reports at
most `max_new_tokens` generated tokens. -/
theorem C3_eos_stops_decoding :
    (∀ (fw : List Nat → Except String (List (List ℚ))) (eos fuel : Nat)
        (ids out : List Nat) (i : Nat),
        decodeLoop fw eos fuel ids = .ok out →
        (out.drop ids.length)[i]? = some eos →
        (out.drop ids.length).length = i + 1 ∧ i + 1 ≤ fuel) ∧
    (∀ (inst : ModelInstance) (tok : Tokenizer) (prompt : String)
        (fuel : Nat) (t : ℚ) (k nanos : Nat) (r : GenerationResponse),
        inst.generate tok prompt fuel t k nanos = .ok r →
        r.tokens_generated ≤ fuel) := by
  constructor
  · intro fw eos fuel ids out i h hget
    obtain ⟨gen, hout, hlen, _, hinterior⟩ :=
      decodeLoop_ok_structure fw eos fuel ids out h
    subst hout
    rw [List.drop_left] at hget ⊢
    have hi : i < gen.length := by
      by_contra hge
      rw [List.getElem?_eq_none (by omega)] at hget
      exact Option.noConfusion hget
    have hnot : ¬ i + 1 < gen.length := fun hlt => hinterior i hlt hget
    exact ⟨by omega, by omega⟩
  · intro inst tok prompt fuel t k nanos r h
    obtain ⟨ids0, finalIds, completion, henc, hdl, hdec, hr⟩ :=
      generate_ok_inversion inst tok prompt fuel t k nanos r h
    obtain ⟨gen, hout, hlen, _, _⟩ :=
      decodeLoop_ok_structure inst.forward EOS_TOKEN_ID fuel
        (if ids0.isEmpty then [0] else ids0) finalIds hdl
    subst hr
    subst hout
    simpa [List.drop_left] using hlen

/-- Witness for C3's amended theorem: a one-token decode that selects EOS at
step 0 of a three-step budget, and a concrete two-token generation within its
budget. -/
theorem C3_witness :
    ((([0, 50256] : List Nat).drop ([0] : List Nat).length).length = 0 + 1 ∧
      0 + 1 ≤ 3) ∧
    respUnit.tokens_generated ≤ 2 :=
  ⟨C3_eos_stops_decoding.1 eosInst.forward EOS_TOKEN_ID 3 [0] [0, 50256] 0
      (by
        rw [show (3 : Nat) = 2 + 1 from rfl,
          decodeLoop_step eosInst.forward EOS_TOKEN_ID 2 [0]
            [List.replicate 50256 (0 : ℚ) ++ [1]]
            (List.replicate 50256 (0 : ℚ) ++ [1]) rfl rfl,
          argmax_eos_logits]
        rfl)
      (by rfl),
   C3_eos_stops_decoding.2 unitInst sampleTok "p" 2 0 0 0 respUnit (by rfl)⟩

/-- Counterexample to C3 as stated: with `max_new_tokens = 1` and a forward
pass whose argmax is the end-of-sequence id, EOS is selected during the
decode loop (the final sequence is `[0, 50256]`), yet generation performs all
`1 = max_new_tokens` iterations and reports `tokens_generated = 1`, which is
not a truncated count below `max_new_tokens`. -/
theorem C3_counterexample :
    decodeLoop eosInst.forward EOS_TOKEN_ID 1 [0] = .ok [0, 50256] ∧
    eosInst.generate sampleTok "hi" 1 0 0 0 =
      .ok { prompt := "hi", completion := "", tokens_generated := 1,
            total_time_ms := 0,
            tokens_per_second := tokens_per_second_calc 2 0,
            model := eosInst.metadata } ∧
    ¬ (1 : Nat) < 1 := by
  have hloop : decodeLoop eosInst.forward EOS_TOKEN_ID 1 [0] =
      .ok [0, 50256] := by
    rw [show (1 : Nat) = 0 + 1 from rfl,
      decodeLoop_step eosInst.forward EOS_TOKEN_ID 0 [0]
        [List.replicate 50256 (0 : ℚ) ++ [1]]
        (List.replicate 50256 (0 : ℚ) ++ [1]) rfl rfl,
      argmax_eos_logits]
    rfl
  refine ⟨hloop, ?_, by omega⟩
  rw [generate_eq_of_components eosInst sampleTok "hi" 1 0 0 0 [0]
    [0, 50256] "" (by decide) rfl hloop rfl]
  rfl

end QLLM
